import Mathlib

/-!
# Verification of the GeoMag geomagnetic field sampler

Shallow embedding of the `AP_Declination` component declared in
`src/GeoMag.h`.  The header declares the public operations
(`get_mag_field_ef`, `get_earth_field_ga`, `get_declination`), the table
dimensions (`LAT_TABLE_SIZE = 19`, `LON_TABLE_SIZE = 37`) and the sampling
constants; the implementation file `GeoMag.cpp` and the table data
`tables.cpp` are not part of the source tree, so the bodies of the three
operations and the numeric table contents are modelled from the
specification.  Scalar arithmetic is embedded over `ℚ` (the sampler is
pure rational arithmetic) and the trigonometric vector reconstruction over
`ℝ`.  The three data tables are opaque parameters: every theorem below is
universally quantified over them, matching the spec's view of the grids as
an externally supplied immutable resource.
-/

namespace GeoMag

/-- Sampling resolution in degrees (`SAMPLING_RES` in `GeoMag.h`);
the spec fixes 10°-equivalent spacing. -/
def SAMPLING_RES : ℚ := 10

/-- Minimum latitude supported by the tables (`SAMPLING_MIN_LAT`). -/
def SAMPLING_MIN_LAT : ℚ := -90

/-- Maximum latitude supported by the tables (`SAMPLING_MAX_LAT`). -/
def SAMPLING_MAX_LAT : ℚ := 90

/-- Minimum longitude supported by the tables (`SAMPLING_MIN_LON`). -/
def SAMPLING_MIN_LON : ℚ := -180

/-- Maximum longitude supported by the tables (`SAMPLING_MAX_LON`). -/
def SAMPLING_MAX_LON : ℚ := 180

/-- Number of table rows in the latitude direction (`LAT_TABLE_SIZE = 19`
in `GeoMag.h`). -/
def LAT_TABLE_SIZE : ℕ := 19

/-- Number of table columns in the longitude direction
(`LON_TABLE_SIZE = 37` in `GeoMag.h`). -/
def LON_TABLE_SIZE : ℕ := 37

/-- One scalar grid, indexed row (latitude) then column (longitude).  The
index type is bare `ℕ` so that in-bounds access is a proved property
rather than a typing artifact; the table values themselves live in
`tables.cpp`, outside the source tree, hence the tables stay abstract. -/
abbrev Table : Type := ℕ → ℕ → ℚ

/-- The three static grids of `AP_Declination` (declared in `GeoMag.h`,
data supplied by the missing `tables.cpp`). -/
structure Tables where
  declination_table : Table
  inclination_table : Table
  intensity_table : Table

/-- `Location` from `GeoMag.h`: latitude/longitude in 1e-7 degrees. -/
structure Location where
  lat : ℤ
  lng : ℤ

/-- `Vector3f` from `GeoMag.h`: NED components (x=North, y=East, z=Down). -/
structure Vector3f where
  x : ℝ
  y : ℝ
  z : ℝ

/-- Result of `get_mag_field_ef`: the boolean return value and the three
scalar out-parameters of the C++ signature. -/
structure MagSample where
  valid : Bool
  intensity_gauss : ℚ
  declination_deg : ℚ
  inclination_deg : ℚ

/-- Clamp `x` into the closed interval `[lo, hi]` (for `lo ≤ hi`). -/
def clampQ (lo hi x : ℚ) : ℚ := max lo (min hi x)

/-- Modelled from the spec: step 2 of the Field Sampler (`GeoMag.cpp` is
missing from the source tree).  Longitude is normalized into the table's
domain by adding/subtracting 360° as needed before range validation; a
single correction step, so a longitude further than one revolution out of
range can still fail validation, as the spec's step 1 allows. -/
def wrap_longitude (lon : ℚ) : ℚ :=
  if lon > SAMPLING_MAX_LON then lon - 360
  else if lon < SAMPLING_MIN_LON then lon + 360
  else lon

/-- Modelled from the spec: latitude clamped to the table bounds, used by
the best-effort fallback interpolation of the missing `GeoMag.cpp`. -/
def lat_clamped (lat : ℚ) : ℚ := clampQ SAMPLING_MIN_LAT SAMPLING_MAX_LAT lat

/-- Modelled from the spec: (already wrapped) longitude clamped to the
table bounds, used by the best-effort fallback interpolation. -/
def lon_clamped (lon : ℚ) : ℚ := clampQ SAMPLING_MIN_LON SAMPLING_MAX_LON lon

/-- Modelled from the spec: step 3 of the Field Sampler,
`(lat - lat_min) / step` evaluated on the clamped latitude. -/
def lat_frac_coord (lat : ℚ) : ℚ := (lat_clamped lat - SAMPLING_MIN_LAT) / SAMPLING_RES

/-- Modelled from the spec: step 3 of the Field Sampler,
`(lon - lon_min) / step` evaluated on the clamped longitude. -/
def lon_frac_coord (lon : ℚ) : ℚ := (lon_clamped lon - SAMPLING_MIN_LON) / SAMPLING_RES

/-- Modelled from the spec: lower-left row index, the integer part of the
fractional latitude coordinate. -/
def row_index (lat : ℚ) : ℕ := (⌊lat_frac_coord lat⌋).toNat

/-- Modelled from the spec: lower-left column index, the integer part of
the fractional longitude coordinate. -/
def col_index (lon : ℚ) : ℕ := (⌊lon_frac_coord lon⌋).toNat

/-- Modelled from the spec: step 4, the "next" row index, clamped to the
last valid row at the grid's upper latitude edge. -/
def row_next (lat : ℚ) : ℕ := min (row_index lat + 1) (LAT_TABLE_SIZE - 1)

/-- Modelled from the spec: step 4, the "next" column index, wrapping
modulo `LON_TABLE_SIZE` at the 360°-periodic seam. -/
def col_next (lon : ℚ) : ℕ := (col_index lon + 1) % LON_TABLE_SIZE

/-- Modelled from the spec: interpolation weight `tlat`, the fractional
part of the latitude coordinate. -/
def tlat (lat : ℚ) : ℚ := Int.fract (lat_frac_coord lat)

/-- Modelled from the spec: interpolation weight `tlon`, the fractional
part of the longitude coordinate. -/
def tlon (lon : ℚ) : ℚ := Int.fract (lon_frac_coord lon)

/-- Modelled from the spec: step 5, bilinear interpolation of one grid
with the clamped/wrapped indices of step 4. -/
def sample_table (V : Table) (lat lon : ℚ) : ℚ :=
  (1 - tlat lat) * (1 - tlon lon) * V (row_index lat) (col_index lon)
  + (1 - tlat lat) * tlon lon * V (row_index lat) (col_next lon)
  + tlat lat * (1 - tlon lon) * V (row_next lat) (col_index lon)
  + tlat lat * tlon lon * V (row_next lat) (col_next lon)

/-- Modelled from the spec: step 1, range validation of the latitude and
of the wrapped longitude against the inclusive table bounds. -/
def in_range (lat lonw : ℚ) : Bool :=
  decide (SAMPLING_MIN_LAT ≤ lat) && decide (lat ≤ SAMPLING_MAX_LAT)
  && decide (SAMPLING_MIN_LON ≤ lonw) && decide (lonw ≤ SAMPLING_MAX_LON)

/-- Modelled from the spec: `AP_Declination::get_mag_field_ef`
(declared at `GeoMag.h:42`, body in the missing `GeoMag.cpp`).  Wraps the
longitude, validates the range, and returns the bilinear interpolation of
the three grids at the clamped position together with the validity flag;
validation failure still returns the best-effort clamped interpolation. -/
def get_mag_field_ef (t : Tables) (latitude_deg longitude_deg : ℚ) : MagSample :=
  let lonw := wrap_longitude longitude_deg
  { valid := in_range latitude_deg lonw
    intensity_gauss := sample_table t.intensity_table latitude_deg lonw
    declination_deg := sample_table t.declination_table latitude_deg lonw
    inclination_deg := sample_table t.inclination_table latitude_deg lonw }

/-- Degrees to radians, applied before the trigonometric functions. -/
noncomputable def radians (deg : ℝ) : ℝ := deg * Real.pi / 180

/-- Modelled from the spec: the Vector Reconstructor,
`to_vector(intensity, declination_deg, inclination_deg)`, a pure
trigonometric decomposition into the NED frame. -/
noncomputable def to_vector (intensity declination_deg inclination_deg : ℝ) : Vector3f :=
  { x := intensity * Real.cos (radians inclination_deg) * Real.cos (radians declination_deg)
    y := intensity * Real.cos (radians inclination_deg) * Real.sin (radians declination_deg)
    z := intensity * Real.sin (radians inclination_deg) }

/-- Modelled from the spec: `AP_Declination::get_earth_field_ga`
(declared at `GeoMag.h:53`, body in the missing `GeoMag.cpp`).  Converts
the fixed-point coordinate to degrees (divide by 1e7), calls the Field
Sampler, then the Vector Reconstructor. -/
noncomputable def get_earth_field_ga (t : Tables) (loc : Location) : Vector3f :=
  let latd : ℚ := (loc.lat : ℚ) / 10 ^ 7
  let lngd : ℚ := (loc.lng : ℚ) / 10 ^ 7
  let s := get_mag_field_ef t latd lngd
  to_vector (s.intensity_gauss : ℝ) (s.declination_deg : ℝ) (s.inclination_deg : ℝ)

/-- Modelled from the spec: `AP_Declination::get_declination`
(declared at `GeoMag.h:64`, body in the missing `GeoMag.cpp`).  A pure
projection of the Field Sampler's declination component. -/
def get_declination (t : Tables) (latitude_deg longitude_deg : ℚ) : ℚ :=
  (get_mag_field_ef t latitude_deg longitude_deg).declination_deg

/-- The bilinear interpolation formula exactly as the spec states it in
step 5, with literal `r+1`, `c+1` neighbour indices and the raw (unclamped)
integer/fractional decomposition of step 3; the implementation is compared
against this on in-grid coordinates. -/
def bilinear_formula (V : Table) (lat lon : ℚ) : ℚ :=
  let x := (lat - SAMPLING_MIN_LAT) / SAMPLING_RES
  let y := (lon - SAMPLING_MIN_LON) / SAMPLING_RES
  let r := (⌊x⌋).toNat
  let c := (⌊y⌋).toNat
  let ta := Int.fract x
  let tb := Int.fract y
  (1 - ta) * (1 - tb) * V r c + (1 - ta) * tb * V r (c + 1)
  + ta * (1 - tb) * V (r + 1) c + ta * tb * V (r + 1) (c + 1)

/-! ## Basic lemmas about clamping and the index decomposition -/

lemma clampQ_eq_self (lo hi x : ℚ) (h1 : lo ≤ x) (h2 : x ≤ hi) :
    clampQ lo hi x = x := by
  unfold clampQ
  rw [min_eq_right h2, max_eq_right h1]

lemma le_clampQ (lo hi x : ℚ) : lo ≤ clampQ lo hi x := le_max_left _ _

lemma clampQ_le (lo hi x : ℚ) (h : lo ≤ hi) : clampQ lo hi x ≤ hi :=
  max_le h (min_le_left _ _)

lemma lat_clamped_mem (lat : ℚ) :
    SAMPLING_MIN_LAT ≤ lat_clamped lat ∧ lat_clamped lat ≤ SAMPLING_MAX_LAT :=
  ⟨le_clampQ _ _ _, clampQ_le _ _ _ (by norm_num [SAMPLING_MIN_LAT, SAMPLING_MAX_LAT])⟩

lemma lon_clamped_mem (lon : ℚ) :
    SAMPLING_MIN_LON ≤ lon_clamped lon ∧ lon_clamped lon ≤ SAMPLING_MAX_LON :=
  ⟨le_clampQ _ _ _, clampQ_le _ _ _ (by norm_num [SAMPLING_MIN_LON, SAMPLING_MAX_LON])⟩

lemma lat_clamped_eq_self (lat : ℚ) (h1 : SAMPLING_MIN_LAT ≤ lat)
    (h2 : lat ≤ SAMPLING_MAX_LAT) : lat_clamped lat = lat :=
  clampQ_eq_self _ _ _ h1 h2

lemma lon_clamped_eq_self (lon : ℚ) (h1 : SAMPLING_MIN_LON ≤ lon)
    (h2 : lon ≤ SAMPLING_MAX_LON) : lon_clamped lon = lon :=
  clampQ_eq_self _ _ _ h1 h2

lemma lat_frac_coord_nonneg (lat : ℚ) : 0 ≤ lat_frac_coord lat := by
  have h := (lat_clamped_mem lat).1
  unfold lat_frac_coord
  rw [SAMPLING_RES]
  rw [SAMPLING_MIN_LAT] at h ⊢
  linarith [div_nonneg (by linarith : (0:ℚ) ≤ lat_clamped lat - -90) (by norm_num : (0:ℚ) ≤ 10)]

lemma lat_frac_coord_le (lat : ℚ) : lat_frac_coord lat ≤ 18 := by
  have h := (lat_clamped_mem lat).2
  unfold lat_frac_coord
  rw [SAMPLING_RES]
  rw [SAMPLING_MAX_LAT] at h
  rw [SAMPLING_MIN_LAT, div_le_iff₀ (by norm_num : (0:ℚ) < 10)]
  linarith

lemma lon_frac_coord_nonneg (lon : ℚ) : 0 ≤ lon_frac_coord lon := by
  have h := (lon_clamped_mem lon).1
  unfold lon_frac_coord
  rw [SAMPLING_RES]
  rw [SAMPLING_MIN_LON] at h ⊢
  linarith [div_nonneg (by linarith : (0:ℚ) ≤ lon_clamped lon - -180) (by norm_num : (0:ℚ) ≤ 10)]

lemma lon_frac_coord_le (lon : ℚ) : lon_frac_coord lon ≤ 36 := by
  have h := (lon_clamped_mem lon).2
  unfold lon_frac_coord
  rw [SAMPLING_RES]
  rw [SAMPLING_MAX_LON] at h
  rw [SAMPLING_MIN_LON, div_le_iff₀ (by norm_num : (0:ℚ) < 10)]
  linarith

lemma row_index_le (lat : ℚ) : row_index lat ≤ 18 := by
  unfold row_index
  rw [Int.toNat_le]
  have h : ⌊lat_frac_coord lat⌋ ≤ ⌊(18:ℚ)⌋ := Int.floor_mono (lat_frac_coord_le lat)
  simpa using h

lemma col_index_le (lon : ℚ) : col_index lon ≤ 36 := by
  unfold col_index
  rw [Int.toNat_le]
  have h : ⌊lon_frac_coord lon⌋ ≤ ⌊(36:ℚ)⌋ := Int.floor_mono (lon_frac_coord_le lon)
  simpa using h

lemma row_next_le (lat : ℚ) : row_next lat ≤ 18 := by
  unfold row_next LAT_TABLE_SIZE
  omega

lemma col_next_le (lon : ℚ) : col_next lon ≤ 36 := by
  unfold col_next LON_TABLE_SIZE
  omega

lemma tlat_nonneg (lat : ℚ) : 0 ≤ tlat lat := Int.fract_nonneg _

lemma tlat_lt_one (lat : ℚ) : tlat lat < 1 := Int.fract_lt_one _

lemma tlon_nonneg (lon : ℚ) : 0 ≤ tlon lon := Int.fract_nonneg _

lemma tlon_lt_one (lon : ℚ) : tlon lon < 1 := Int.fract_lt_one _

lemma wrap_longitude_eq_self (lon : ℚ) (h1 : SAMPLING_MIN_LON ≤ lon)
    (h2 : lon ≤ SAMPLING_MAX_LON) : wrap_longitude lon = lon := by
  unfold wrap_longitude
  rw [if_neg (by exact not_lt.mpr h2), if_neg (by exact not_lt.mpr h1)]

lemma row_next_eq (lat : ℚ) (h : lat_frac_coord lat < 18) :
    row_next lat = row_index lat + 1 := by
  have h1 : ⌊lat_frac_coord lat⌋ < 18 :=
    Int.floor_lt.mpr (by exact_mod_cast h)
  unfold row_next row_index LAT_TABLE_SIZE
  omega

lemma tlat_eq_zero_at_top (lat : ℚ) (h : lat_frac_coord lat = 18) :
    tlat lat = 0 := by
  unfold tlat
  rw [h]
  norm_num [Int.fract]

lemma col_next_eq (lon : ℚ) (h : lon_frac_coord lon < 36) :
    col_next lon = col_index lon + 1 := by
  have h1 : ⌊lon_frac_coord lon⌋ < 36 :=
    Int.floor_lt.mpr (by exact_mod_cast h)
  unfold col_next col_index LON_TABLE_SIZE
  omega

lemma tlon_eq_zero_at_seam (lon : ℚ) (h : lon_frac_coord lon = 36) :
    tlon lon = 0 := by
  unfold tlon
  rw [h]
  norm_num [Int.fract]

/-- On in-grid coordinates the implementation's clamped/wrapped bilinear
interpolation coincides with the spec's literal `r+1`/`c+1` formula: the
neighbour indices only differ at the top latitude row and the seam
column, where the corresponding interpolation weight vanishes. -/
lemma sample_table_eq_bilinear (V : Table) (lat w : ℚ)
    (h1 : SAMPLING_MIN_LAT ≤ lat) (h2 : lat ≤ SAMPLING_MAX_LAT)
    (h3 : SAMPLING_MIN_LON ≤ w) (h4 : w ≤ SAMPLING_MAX_LON) :
    sample_table V lat w = bilinear_formula V lat w := by
  have hx : (lat - SAMPLING_MIN_LAT) / SAMPLING_RES = lat_frac_coord lat := by
    unfold lat_frac_coord
    rw [lat_clamped_eq_self lat h1 h2]
  have hy : (w - SAMPLING_MIN_LON) / SAMPLING_RES = lon_frac_coord w := by
    unfold lon_frac_coord
    rw [lon_clamped_eq_self w h3 h4]
  unfold bilinear_formula sample_table
  rw [hx, hy]
  show (1 - tlat lat) * (1 - tlon w) * V (row_index lat) (col_index w)
      + (1 - tlat lat) * tlon w * V (row_index lat) (col_next w)
      + tlat lat * (1 - tlon w) * V (row_next lat) (col_index w)
      + tlat lat * tlon w * V (row_next lat) (col_next w)
    = (1 - tlat lat) * (1 - tlon w) * V (row_index lat) (col_index w)
      + (1 - tlat lat) * tlon w * V (row_index lat) (col_index w + 1)
      + tlat lat * (1 - tlon w) * V (row_index lat + 1) (col_index w)
      + tlat lat * tlon w * V (row_index lat + 1) (col_index w + 1)
  rcases lt_or_eq_of_le (lat_frac_coord_le lat) with hlat | hlat
  · rcases lt_or_eq_of_le (lon_frac_coord_le w) with hlon | hlon
    · rw [row_next_eq lat hlat, col_next_eq w hlon]
    · rw [tlon_eq_zero_at_seam w hlon, row_next_eq lat hlat]
      ring
  · rcases lt_or_eq_of_le (lon_frac_coord_le w) with hlon | hlon
    · rw [tlat_eq_zero_at_top lat hlat, col_next_eq w hlon]
      ring
    · rw [tlat_eq_zero_at_top lat hlat, tlon_eq_zero_at_seam w hlon]
      ring

/-- Sampling exactly at grid point `(row, col)` returns the stored value:
the fractional coordinates are the integers `row`, `col`, so both
interpolation weights vanish. -/
lemma grid_lat_mem (row : ℕ) (hr : row ≤ 18) :
    SAMPLING_MIN_LAT ≤ SAMPLING_MIN_LAT + row * SAMPLING_RES
    ∧ SAMPLING_MIN_LAT + row * SAMPLING_RES ≤ SAMPLING_MAX_LAT := by
  constructor
  · rw [SAMPLING_MIN_LAT, SAMPLING_RES]
    have : (0:ℚ) ≤ (row : ℚ) * 10 := by positivity
    linarith
  · rw [SAMPLING_MIN_LAT, SAMPLING_MAX_LAT, SAMPLING_RES]
    have : (row : ℚ) ≤ 18 := by exact_mod_cast hr
    linarith

lemma grid_lon_mem (col : ℕ) (hc : col ≤ 36) :
    SAMPLING_MIN_LON ≤ SAMPLING_MIN_LON + col * SAMPLING_RES
    ∧ SAMPLING_MIN_LON + col * SAMPLING_RES ≤ SAMPLING_MAX_LON := by
  constructor
  · rw [SAMPLING_MIN_LON, SAMPLING_RES]
    have : (0:ℚ) ≤ (col : ℚ) * 10 := by positivity
    linarith
  · rw [SAMPLING_MIN_LON, SAMPLING_MAX_LON, SAMPLING_RES]
    have : (col : ℚ) ≤ 36 := by exact_mod_cast hc
    linarith

lemma sample_table_at_grid (V : Table) (row col : ℕ)
    (hr : row ≤ 18) (hc : col ≤ 36) :
    sample_table V (SAMPLING_MIN_LAT + row * SAMPLING_RES)
      (SAMPLING_MIN_LON + col * SAMPLING_RES) = V row col := by
  have hlat1 := (grid_lat_mem row hr).1
  have hlat2 := (grid_lat_mem row hr).2
  have hlon1 := (grid_lon_mem col hc).1
  have hlon2 := (grid_lon_mem col hc).2
  have hx : lat_frac_coord (SAMPLING_MIN_LAT + row * SAMPLING_RES) = (row : ℚ) := by
    unfold lat_frac_coord
    rw [lat_clamped_eq_self _ hlat1 hlat2, SAMPLING_RES]
    field_simp
  have hy : lon_frac_coord (SAMPLING_MIN_LON + col * SAMPLING_RES) = (col : ℚ) := by
    unfold lon_frac_coord
    rw [lon_clamped_eq_self _ hlon1 hlon2, SAMPLING_RES]
    field_simp
  have hta : tlat (SAMPLING_MIN_LAT + row * SAMPLING_RES) = 0 := by
    unfold tlat
    rw [hx, Int.fract_natCast]
  have htb : tlon (SAMPLING_MIN_LON + col * SAMPLING_RES) = 0 := by
    unfold tlon
    rw [hy, Int.fract_natCast]
  have hri : row_index (SAMPLING_MIN_LAT + row * SAMPLING_RES) = row := by
    unfold row_index
    rw [hx, Int.floor_natCast, Int.toNat_natCast]
  have hci : col_index (SAMPLING_MIN_LON + col * SAMPLING_RES) = col := by
    unfold col_index
    rw [hy, Int.floor_natCast, Int.toNat_natCast]
  unfold sample_table
  rw [hta, htb, hri, hci]
  ring

/-- The interpolated value is a convex combination of the four grid cells
actually read, so it lies between their minimum and maximum. -/
lemma sample_table_bounds (V : Table) (lat lon : ℚ) :
    min (min (V (row_index lat) (col_index lon)) (V (row_index lat) (col_next lon)))
      (min (V (row_next lat) (col_index lon)) (V (row_next lat) (col_next lon)))
      ≤ sample_table V lat lon
    ∧ sample_table V lat lon ≤
      max (max (V (row_index lat) (col_index lon)) (V (row_index lat) (col_next lon)))
        (max (V (row_next lat) (col_index lon)) (V (row_next lat) (col_next lon))) := by
  have key : sample_table V lat lon =
      (1 - tlat lat) * (1 - tlon lon) * V (row_index lat) (col_index lon)
      + (1 - tlat lat) * tlon lon * V (row_index lat) (col_next lon)
      + tlat lat * (1 - tlon lon) * V (row_next lat) (col_index lon)
      + tlat lat * tlon lon * V (row_next lat) (col_next lon) := rfl
  have hta0 : 0 ≤ tlat lat := tlat_nonneg lat
  have hta1 : tlat lat ≤ 1 := le_of_lt (tlat_lt_one lat)
  have htb0 : 0 ≤ tlon lon := tlon_nonneg lon
  have htb1 : tlon lon ≤ 1 := le_of_lt (tlon_lt_one lon)
  set ta := tlat lat
  set tb := tlon lon
  set a := V (row_index lat) (col_index lon)
  set b := V (row_index lat) (col_next lon)
  set c := V (row_next lat) (col_index lon)
  set d := V (row_next lat) (col_next lon)
  set m := min (min a b) (min c d) with hm
  set M := max (max a b) (max c d) with hM
  have hma : m ≤ a := le_trans (min_le_left _ _) (min_le_left _ _)
  have hmb : m ≤ b := le_trans (min_le_left _ _) (min_le_right _ _)
  have hmc : m ≤ c := le_trans (min_le_right _ _) (min_le_left _ _)
  have hmd : m ≤ d := le_trans (min_le_right _ _) (min_le_right _ _)
  have haM : a ≤ M := le_trans (le_max_left _ _) (le_max_left _ _)
  have hbM : b ≤ M := le_trans (le_max_right _ _) (le_max_left _ _)
  have hcM : c ≤ M := le_trans (le_max_left _ _) (le_max_right _ _)
  have hdM : d ≤ M := le_trans (le_max_right _ _) (le_max_right _ _)
  constructor
  · have e1 : sample_table V lat lon - m =
        (1 - ta) * (1 - tb) * (a - m) + (1 - ta) * tb * (b - m)
        + ta * (1 - tb) * (c - m) + ta * tb * (d - m) := by
      rw [key]
      ring
    have p1 : 0 ≤ (1 - ta) * (1 - tb) * (a - m) :=
      mul_nonneg (mul_nonneg (by linarith) (by linarith)) (by linarith)
    have p2 : 0 ≤ (1 - ta) * tb * (b - m) :=
      mul_nonneg (mul_nonneg (by linarith) htb0) (by linarith)
    have p3 : 0 ≤ ta * (1 - tb) * (c - m) :=
      mul_nonneg (mul_nonneg hta0 (by linarith)) (by linarith)
    have p4 : 0 ≤ ta * tb * (d - m) :=
      mul_nonneg (mul_nonneg hta0 htb0) (by linarith)
    linarith
  · have e2 : M - sample_table V lat lon =
        (1 - ta) * (1 - tb) * (M - a) + (1 - ta) * tb * (M - b)
        + ta * (1 - tb) * (M - c) + ta * tb * (M - d) := by
      rw [key]
      ring
    have p1 : 0 ≤ (1 - ta) * (1 - tb) * (M - a) :=
      mul_nonneg (mul_nonneg (by linarith) (by linarith)) (by linarith)
    have p2 : 0 ≤ (1 - ta) * tb * (M - b) :=
      mul_nonneg (mul_nonneg (by linarith) htb0) (by linarith)
    have p3 : 0 ≤ ta * (1 - tb) * (M - c) :=
      mul_nonneg (mul_nonneg hta0 (by linarith)) (by linarith)
    have p4 : 0 ≤ ta * tb * (M - d) :=
      mul_nonneg (mul_nonneg hta0 htb0) (by linarith)
    linarith

/-- The sampler only sees the coordinates through their clamped values. -/
lemma sample_table_congr (V : Table) (lat lat' lon lon' : ℚ)
    (hla : lat_clamped lat = lat_clamped lat')
    (hlo : lon_clamped lon = lon_clamped lon') :
    sample_table V lat lon = sample_table V lat' lon' := by
  simp only [sample_table, tlat, tlon, row_index, row_next, col_index, col_next,
    lat_frac_coord, lon_frac_coord, hla, hlo]

lemma lat_clamped_idem (lat : ℚ) : lat_clamped (lat_clamped lat) = lat_clamped lat :=
  clampQ_eq_self _ _ _ (lat_clamped_mem lat).1 (lat_clamped_mem lat).2

lemma lon_clamped_idem (lon : ℚ) : lon_clamped (lon_clamped lon) = lon_clamped lon :=
  clampQ_eq_self _ _ _ (lon_clamped_mem lon).1 (lon_clamped_mem lon).2

lemma lon_frac_coord_180 : lon_frac_coord (180 : ℚ) = 36 := by
  norm_num [lon_frac_coord, lon_clamped, clampQ,
    SAMPLING_MIN_LON, SAMPLING_MAX_LON, SAMPLING_RES]

lemma lon_frac_coord_neg180 : lon_frac_coord (-180 : ℚ) = 0 := by
  norm_num [lon_frac_coord, lon_clamped, clampQ,
    SAMPLING_MIN_LON, SAMPLING_MAX_LON, SAMPLING_RES]

lemma col_index_180 : col_index (180 : ℚ) = 36 := by
  rw [col_index, lon_frac_coord_180]
  norm_num
  rfl

lemma col_next_180 : col_next (180 : ℚ) = 0 := by
  rw [col_next, col_index_180]
  rfl

lemma tlon_180 : tlon (180 : ℚ) = 0 := by
  rw [tlon, lon_frac_coord_180]
  norm_num [Int.fract]

lemma col_index_neg180 : col_index (-180 : ℚ) = 0 := by
  rw [col_index, lon_frac_coord_neg180]
  norm_num

lemma col_next_neg180 : col_next (-180 : ℚ) = 1 := by
  rw [col_next, col_index_neg180]
  rfl

lemma tlon_neg180 : tlon (-180 : ℚ) = 0 := by
  rw [tlon, lon_frac_coord_neg180]
  norm_num [Int.fract]

/-- Sampling at longitude 180° and at −180° reads column 36 resp.
column 0; when the table is periodic across the seam the two
interpolations agree for every table row pattern. -/
lemma sample_table_seam (V : Table) (lat : ℚ) (hper : ∀ r, V r 36 = V r 0) :
    sample_table V lat 180 = sample_table V lat (-180) := by
  simp only [sample_table]
  rw [tlon_180, tlon_neg180, col_index_180, col_next_180, col_index_neg180,
    col_next_neg180, hper (row_index lat), hper (row_next lat)]
  ring

/-- Unfolding of `get_earth_field_ga`: fixed-point to degrees, sampler,
then reconstructor. -/
lemma get_earth_field_ga_def (t : Tables) (loc : Location) :
    get_earth_field_ga t loc = to_vector
      (((get_mag_field_ef t ((loc.lat : ℚ) / 10 ^ 7) ((loc.lng : ℚ) / 10 ^ 7)).intensity_gauss : ℝ))
      (((get_mag_field_ef t ((loc.lat : ℚ) / 10 ^ 7) ((loc.lng : ℚ) / 10 ^ 7)).declination_deg : ℝ))
      (((get_mag_field_ef t ((loc.lat : ℚ) / 10 ^ 7) ((loc.lng : ℚ) / 10 ^ 7)).inclination_deg : ℝ)) :=
  rfl

/-- Concrete table used to witness the theorems: a distinct value in
every cell. -/
def tableA : Table := fun r c => (r : ℚ) * 40 + c

/-- Witness table set built from `tableA`. -/
def tablesA : Tables := ⟨tableA, tableA, tableA⟩

/-- Concrete table that is periodic across the antimeridian seam (its
value only depends on the row), witnessing the seam hypotheses. -/
def tableP : Table := fun r _ => (r : ℚ)

/-- Witness table set built from `tableP`. -/
def tablesP : Tables := ⟨tableP, tableP, tableP⟩

/-! ## Claim theorems -/

/-- C1: for every latitude/longitude whose (possibly normalized)
coordinates lie inside the grid, `get_mag_field_ef` computes each of the
three output scalars by bilinear interpolation over the four surrounding
cells, matching the spec's literal formula
`(1-tlat)*(1-tlon)*V[r][c] + (1-tlat)*tlon*V[r][c+1]
 + tlat*(1-tlon)*V[r+1][c] + tlat*tlon*V[r+1][c+1]`
with `r`, `c` the integer parts and `tlat`, `tlon` the fractional parts
of `(lat - lat_min)/step` and `(lon - lon_min)/step`. -/
theorem C1_bilinear_interpolation (t : Tables) (lat lon : ℚ)
    (h1 : SAMPLING_MIN_LAT ≤ lat) (h2 : lat ≤ SAMPLING_MAX_LAT)
    (h3 : SAMPLING_MIN_LON ≤ wrap_longitude lon)
    (h4 : wrap_longitude lon ≤ SAMPLING_MAX_LON) :
    (get_mag_field_ef t lat lon).intensity_gauss
      = bilinear_formula t.intensity_table lat (wrap_longitude lon)
    ∧ (get_mag_field_ef t lat lon).declination_deg
      = bilinear_formula t.declination_table lat (wrap_longitude lon)
    ∧ (get_mag_field_ef t lat lon).inclination_deg
      = bilinear_formula t.inclination_table lat (wrap_longitude lon) :=
  ⟨sample_table_eq_bilinear _ _ _ h1 h2 h3 h4,
   sample_table_eq_bilinear _ _ _ h1 h2 h3 h4,
   sample_table_eq_bilinear _ _ _ h1 h2 h3 h4⟩

/-- Witness for C1 at the interior point (5°, 7°). -/
theorem C1_bilinear_interpolation_witness :
    (SAMPLING_MIN_LAT ≤ (5:ℚ) ∧ (5:ℚ) ≤ SAMPLING_MAX_LAT
      ∧ SAMPLING_MIN_LON ≤ wrap_longitude 7 ∧ wrap_longitude 7 ≤ SAMPLING_MAX_LON)
    ∧ ((get_mag_field_ef tablesA 5 7).intensity_gauss
        = bilinear_formula tablesA.intensity_table 5 (wrap_longitude 7)
      ∧ (get_mag_field_ef tablesA 5 7).declination_deg
        = bilinear_formula tablesA.declination_table 5 (wrap_longitude 7)
      ∧ (get_mag_field_ef tablesA 5 7).inclination_deg
        = bilinear_formula tablesA.inclination_table 5 (wrap_longitude 7)) := by
  have hw : wrap_longitude (7:ℚ) = 7 := by
    norm_num [wrap_longitude, SAMPLING_MAX_LON, SAMPLING_MIN_LON]
  have h1 : SAMPLING_MIN_LAT ≤ (5:ℚ) := by norm_num [SAMPLING_MIN_LAT]
  have h2 : (5:ℚ) ≤ SAMPLING_MAX_LAT := by norm_num [SAMPLING_MAX_LAT]
  have h3 : SAMPLING_MIN_LON ≤ wrap_longitude 7 := by
    rw [hw]
    norm_num [SAMPLING_MIN_LON]
  have h4 : wrap_longitude 7 ≤ SAMPLING_MAX_LON := by
    rw [hw]
    norm_num [SAMPLING_MAX_LON]
  exact ⟨⟨h1, h2, h3, h4⟩, C1_bilinear_interpolation tablesA 5 7 h1 h2 h3 h4⟩

/-- C2: `get_mag_field_ef` returns `true` iff the latitude is inside
`[lat_min, lat_max]` and the wrapped longitude is inside
`[lon_min, lon_max]` (all inclusive); in particular a call at latitude 91
is rejected.  Longitude 361 *is* wrapped into the valid range
(`wrap_longitude 361 = 1`), so the claim's hedged rejection of (0, 361)
does not apply and that call is accepted. -/
theorem C2_range_validation (t : Tables) (lat lon : ℚ) :
    ((get_mag_field_ef t lat lon).valid = true ↔
      (SAMPLING_MIN_LAT ≤ lat ∧ lat ≤ SAMPLING_MAX_LAT
        ∧ SAMPLING_MIN_LON ≤ wrap_longitude lon
        ∧ wrap_longitude lon ≤ SAMPLING_MAX_LON))
    ∧ (get_mag_field_ef t 91 0).valid = false
    ∧ wrap_longitude 361 = 1
    ∧ (get_mag_field_ef t 0 361).valid = true := by
  refine ⟨?_, ?_, ?_, ?_⟩
  · simp only [get_mag_field_ef, in_range, Bool.and_eq_true, decide_eq_true_eq]
    tauto
  · show in_range 91 (wrap_longitude 0) = false
    norm_num [in_range, wrap_longitude, SAMPLING_MIN_LAT, SAMPLING_MAX_LAT,
      SAMPLING_MIN_LON, SAMPLING_MAX_LON]
  · norm_num [wrap_longitude, SAMPLING_MAX_LON, SAMPLING_MIN_LON]
  · show in_range 0 (wrap_longitude 361) = true
    norm_num [in_range, wrap_longitude, SAMPLING_MIN_LAT, SAMPLING_MAX_LAT,
      SAMPLING_MIN_LON, SAMPLING_MAX_LON]

/-- C5: for every input, the four table accesses of the sampler stay
inside `[0, LAT_TABLE_SIZE-1] × [0, LON_TABLE_SIZE-1]`; the "next" row is
clamped at the upper latitude edge (duplicating the edge row at 90°) and
the "next" column wraps modulo `LON_TABLE_SIZE` at the 360°-periodic seam
(column 36 at 180° is followed by column 0). -/
theorem C5_index_bounds (lat lon : ℚ) :
    (∀ V : Table, sample_table V lat lon =
      (1 - tlat lat) * (1 - tlon lon) * V (row_index lat) (col_index lon)
      + (1 - tlat lat) * tlon lon * V (row_index lat) (col_next lon)
      + tlat lat * (1 - tlon lon) * V (row_next lat) (col_index lon)
      + tlat lat * tlon lon * V (row_next lat) (col_next lon))
    ∧ row_index lat < LAT_TABLE_SIZE ∧ row_next lat < LAT_TABLE_SIZE
    ∧ col_index lon < LON_TABLE_SIZE ∧ col_next lon < LON_TABLE_SIZE
    ∧ row_index (90 : ℚ) = LAT_TABLE_SIZE - 1
    ∧ row_next (90 : ℚ) = row_index (90 : ℚ)
    ∧ col_next lon = (col_index lon + 1) % LON_TABLE_SIZE
    ∧ col_index (180 : ℚ) = LON_TABLE_SIZE - 1
    ∧ col_next (180 : ℚ) = 0 := by
  have hri : row_index (90 : ℚ) = 18 := by
    norm_num [row_index, lat_frac_coord, lat_clamped, clampQ,
      SAMPLING_MIN_LAT, SAMPLING_MAX_LAT, SAMPLING_RES]
    rfl
  have hci : col_index (180 : ℚ) = 36 := by
    norm_num [col_index, lon_frac_coord, lon_clamped, clampQ,
      SAMPLING_MIN_LON, SAMPLING_MAX_LON, SAMPLING_RES]
    rfl
  refine ⟨fun V => rfl, ?_, ?_, ?_, ?_, ?_, ?_, rfl, ?_, ?_⟩
  · have h := row_index_le lat
    unfold LAT_TABLE_SIZE
    omega
  · have h := row_next_le lat
    unfold LAT_TABLE_SIZE
    omega
  · have h := col_index_le lon
    unfold LON_TABLE_SIZE
    omega
  · have h := col_next_le lon
    unfold LON_TABLE_SIZE
    omega
  · rw [hri]
    rfl
  · rw [row_next, hri]
    rfl
  · rw [hci]
    rfl
  · rw [col_next, hci]
    rfl

/-- C6: the vector reconstruction returns the NED components
`North = I*cos(Inc)*cos(D)`, `East = I*cos(Inc)*sin(D)`,
`Down = I*sin(Inc)` with degree inputs converted to radians, for all real
inputs (it is total); at `I=0.5, D=0, Inc=90` the vector is exactly
`(0, 0, 0.5)` and at `I=0.5, D=90, Inc=0` exactly `(0, 0.5, 0)`. -/
theorem C6_vector_reconstruction :
    (∀ I D Inc : ℝ, to_vector I D Inc =
      ⟨I * Real.cos (Inc * Real.pi / 180) * Real.cos (D * Real.pi / 180),
       I * Real.cos (Inc * Real.pi / 180) * Real.sin (D * Real.pi / 180),
       I * Real.sin (Inc * Real.pi / 180)⟩)
    ∧ to_vector (1/2) 0 90 = ⟨0, 0, 1/2⟩
    ∧ to_vector (1/2) 90 0 = ⟨0, 1/2, 0⟩ := by
  have h90 : radians 90 = Real.pi / 2 := by
    unfold radians
    ring
  have h0 : radians 0 = 0 := by
    unfold radians
    ring
  refine ⟨fun I D Inc => rfl, ?_, ?_⟩
  · unfold to_vector
    rw [h90, h0]
    simp [Real.cos_pi_div_two, Real.sin_pi_div_two]
  · unfold to_vector
    rw [h90, h0]
    simp [Real.cos_pi_div_two, Real.sin_pi_div_two]

/-- C3: the longitude is wrapped before range validation, so for every
in-range latitude the inputs 180° and −180° are both accepted, and when
the tables are periodic across the antimeridian seam (column 36 stores
the same values as column 0, as a full-globe grid does) the two calls
return identical interpolation results for all three fields. -/
theorem C3_antimeridian_wraparound (t : Tables) (lat : ℚ)
    (h1 : SAMPLING_MIN_LAT ≤ lat) (h2 : lat ≤ SAMPLING_MAX_LAT)
    (hI : ∀ r, t.intensity_table r 36 = t.intensity_table r 0)
    (hD : ∀ r, t.declination_table r 36 = t.declination_table r 0)
    (hN : ∀ r, t.inclination_table r 36 = t.inclination_table r 0) :
    (get_mag_field_ef t lat 180).valid = true
    ∧ (get_mag_field_ef t lat (-180)).valid = true
    ∧ (get_mag_field_ef t lat 180).intensity_gauss
      = (get_mag_field_ef t lat (-180)).intensity_gauss
    ∧ (get_mag_field_ef t lat 180).declination_deg
      = (get_mag_field_ef t lat (-180)).declination_deg
    ∧ (get_mag_field_ef t lat 180).inclination_deg
      = (get_mag_field_ef t lat (-180)).inclination_deg := by
  have hw1 : wrap_longitude (180:ℚ) = 180 := by
    norm_num [wrap_longitude, SAMPLING_MAX_LON, SAMPLING_MIN_LON]
  have hw2 : wrap_longitude (-180:ℚ) = -180 := by
    norm_num [wrap_longitude, SAMPLING_MAX_LON, SAMPLING_MIN_LON]
  refine ⟨?_, ?_, ?_, ?_, ?_⟩
  · show in_range lat (wrap_longitude 180) = true
    rw [hw1]
    simp only [in_range, Bool.and_eq_true, decide_eq_true_eq]
    exact ⟨⟨⟨h1, h2⟩, by norm_num [SAMPLING_MIN_LON]⟩, by norm_num [SAMPLING_MAX_LON]⟩
  · show in_range lat (wrap_longitude (-180)) = true
    rw [hw2]
    simp only [in_range, Bool.and_eq_true, decide_eq_true_eq]
    exact ⟨⟨⟨h1, h2⟩, by norm_num [SAMPLING_MIN_LON]⟩, by norm_num [SAMPLING_MAX_LON]⟩
  · show sample_table t.intensity_table lat (wrap_longitude 180)
      = sample_table t.intensity_table lat (wrap_longitude (-180))
    rw [hw1, hw2]
    exact sample_table_seam _ _ hI
  · show sample_table t.declination_table lat (wrap_longitude 180)
      = sample_table t.declination_table lat (wrap_longitude (-180))
    rw [hw1, hw2]
    exact sample_table_seam _ _ hD
  · show sample_table t.inclination_table lat (wrap_longitude 180)
      = sample_table t.inclination_table lat (wrap_longitude (-180))
    rw [hw1, hw2]
    exact sample_table_seam _ _ hN

/-- Witness for C3 with the seam-periodic table set at latitude 25°. -/
theorem C3_antimeridian_wraparound_witness :
    (SAMPLING_MIN_LAT ≤ (25:ℚ) ∧ (25:ℚ) ≤ SAMPLING_MAX_LAT
      ∧ ∀ r, tablesP.intensity_table r 36 = tablesP.intensity_table r 0)
    ∧ ((get_mag_field_ef tablesP 25 180).valid = true
      ∧ (get_mag_field_ef tablesP 25 (-180)).valid = true
      ∧ (get_mag_field_ef tablesP 25 180).intensity_gauss
        = (get_mag_field_ef tablesP 25 (-180)).intensity_gauss
      ∧ (get_mag_field_ef tablesP 25 180).declination_deg
        = (get_mag_field_ef tablesP 25 (-180)).declination_deg
      ∧ (get_mag_field_ef tablesP 25 180).inclination_deg
        = (get_mag_field_ef tablesP 25 (-180)).inclination_deg) := by
  have h1 : SAMPLING_MIN_LAT ≤ (25:ℚ) := by norm_num [SAMPLING_MIN_LAT]
  have h2 : (25:ℚ) ≤ SAMPLING_MAX_LAT := by norm_num [SAMPLING_MAX_LAT]
  exact ⟨⟨h1, h2, fun r => rfl⟩,
    C3_antimeridian_wraparound tablesP 25 h1 h2
      (fun r => rfl) (fun r => rfl) (fun r => rfl)⟩

/-- C4: an out-of-range query still returns deterministic fallback
values: the same triple as the (valid) best-effort query at the clamped
in-range position obtained by clamping the latitude and the wrapped
longitude to the table bounds. -/
theorem C4_clamped_fallback (t : Tables) (lat lon : ℚ)
    (_h : (get_mag_field_ef t lat lon).valid = false) :
    (get_mag_field_ef t (lat_clamped lat) (lon_clamped (wrap_longitude lon))).valid = true
    ∧ (get_mag_field_ef t lat lon).intensity_gauss
      = (get_mag_field_ef t (lat_clamped lat) (lon_clamped (wrap_longitude lon))).intensity_gauss
    ∧ (get_mag_field_ef t lat lon).declination_deg
      = (get_mag_field_ef t (lat_clamped lat) (lon_clamped (wrap_longitude lon))).declination_deg
    ∧ (get_mag_field_ef t lat lon).inclination_deg
      = (get_mag_field_ef t (lat_clamped lat) (lon_clamped (wrap_longitude lon))).inclination_deg := by
  have hwc : wrap_longitude (lon_clamped (wrap_longitude lon))
      = lon_clamped (wrap_longitude lon) :=
    wrap_longitude_eq_self _ (lon_clamped_mem _).1 (lon_clamped_mem _).2
  refine ⟨?_, ?_, ?_, ?_⟩
  · show in_range (lat_clamped lat) (wrap_longitude (lon_clamped (wrap_longitude lon))) = true
    rw [hwc]
    simp only [in_range, Bool.and_eq_true, decide_eq_true_eq]
    exact ⟨⟨⟨(lat_clamped_mem lat).1, (lat_clamped_mem lat).2⟩,
      (lon_clamped_mem _).1⟩, (lon_clamped_mem _).2⟩
  · show sample_table t.intensity_table lat (wrap_longitude lon)
      = sample_table t.intensity_table (lat_clamped lat)
        (wrap_longitude (lon_clamped (wrap_longitude lon)))
    rw [hwc]
    exact sample_table_congr _ _ _ _ _ (lat_clamped_idem lat).symm (lon_clamped_idem _).symm
  · show sample_table t.declination_table lat (wrap_longitude lon)
      = sample_table t.declination_table (lat_clamped lat)
        (wrap_longitude (lon_clamped (wrap_longitude lon)))
    rw [hwc]
    exact sample_table_congr _ _ _ _ _ (lat_clamped_idem lat).symm (lon_clamped_idem _).symm
  · show sample_table t.inclination_table lat (wrap_longitude lon)
      = sample_table t.inclination_table (lat_clamped lat)
        (wrap_longitude (lon_clamped (wrap_longitude lon)))
    rw [hwc]
    exact sample_table_congr _ _ _ _ _ (lat_clamped_idem lat).symm (lon_clamped_idem _).symm

/-- Witness for C4 at the out-of-range input (91°, 0°). -/
theorem C4_clamped_fallback_witness :
    (get_mag_field_ef tablesA 91 0).valid = false
    ∧ ((get_mag_field_ef tablesA (lat_clamped 91) (lon_clamped (wrap_longitude 0))).valid = true
      ∧ (get_mag_field_ef tablesA 91 0).intensity_gauss
        = (get_mag_field_ef tablesA (lat_clamped 91) (lon_clamped (wrap_longitude 0))).intensity_gauss
      ∧ (get_mag_field_ef tablesA 91 0).declination_deg
        = (get_mag_field_ef tablesA (lat_clamped 91) (lon_clamped (wrap_longitude 0))).declination_deg
      ∧ (get_mag_field_ef tablesA 91 0).inclination_deg
        = (get_mag_field_ef tablesA (lat_clamped 91) (lon_clamped (wrap_longitude 0))).inclination_deg) := by
  have h : (get_mag_field_ef tablesA 91 0).valid = false := by
    show in_range 91 (wrap_longitude 0) = false
    norm_num [in_range, wrap_longitude, SAMPLING_MIN_LAT, SAMPLING_MAX_LAT,
      SAMPLING_MIN_LON, SAMPLING_MAX_LON]
  exact ⟨h, C4_clamped_fallback tablesA 91 0 h⟩

/-- C7: sampling exactly at the grid point of row `row` and column `col`
(latitude `lat_min + row*step`, longitude `lon_min + col*step`) is
accepted and returns exactly the stored table value for all three
fields. -/
theorem C7_grid_point_exact (t : Tables) (row col : ℕ)
    (hr : row < LAT_TABLE_SIZE) (hc : col < LON_TABLE_SIZE) :
    (get_mag_field_ef t (SAMPLING_MIN_LAT + row * SAMPLING_RES)
        (SAMPLING_MIN_LON + col * SAMPLING_RES)).valid = true
    ∧ (get_mag_field_ef t (SAMPLING_MIN_LAT + row * SAMPLING_RES)
        (SAMPLING_MIN_LON + col * SAMPLING_RES)).intensity_gauss = t.intensity_table row col
    ∧ (get_mag_field_ef t (SAMPLING_MIN_LAT + row * SAMPLING_RES)
        (SAMPLING_MIN_LON + col * SAMPLING_RES)).declination_deg = t.declination_table row col
    ∧ (get_mag_field_ef t (SAMPLING_MIN_LAT + row * SAMPLING_RES)
        (SAMPLING_MIN_LON + col * SAMPLING_RES)).inclination_deg = t.inclination_table row col := by
  have hr' : row ≤ 18 := by
    unfold LAT_TABLE_SIZE at hr
    omega
  have hc' : col ≤ 36 := by
    unfold LON_TABLE_SIZE at hc
    omega
  have hlat1 := (grid_lat_mem row hr').1
  have hlat2 := (grid_lat_mem row hr').2
  have hlon1 := (grid_lon_mem col hc').1
  have hlon2 := (grid_lon_mem col hc').2
  have hw : wrap_longitude (SAMPLING_MIN_LON + col * SAMPLING_RES)
      = SAMPLING_MIN_LON + col * SAMPLING_RES :=
    wrap_longitude_eq_self _ hlon1 hlon2
  refine ⟨?_, ?_, ?_, ?_⟩
  · show in_range (SAMPLING_MIN_LAT + row * SAMPLING_RES)
      (wrap_longitude (SAMPLING_MIN_LON + col * SAMPLING_RES)) = true
    rw [hw]
    simp only [in_range, Bool.and_eq_true, decide_eq_true_eq]
    exact ⟨⟨⟨hlat1, hlat2⟩, hlon1⟩, hlon2⟩
  · show sample_table t.intensity_table (SAMPLING_MIN_LAT + row * SAMPLING_RES)
      (wrap_longitude (SAMPLING_MIN_LON + col * SAMPLING_RES)) = t.intensity_table row col
    rw [hw]
    exact sample_table_at_grid _ _ _ hr' hc'
  · show sample_table t.declination_table (SAMPLING_MIN_LAT + row * SAMPLING_RES)
      (wrap_longitude (SAMPLING_MIN_LON + col * SAMPLING_RES)) = t.declination_table row col
    rw [hw]
    exact sample_table_at_grid _ _ _ hr' hc'
  · show sample_table t.inclination_table (SAMPLING_MIN_LAT + row * SAMPLING_RES)
      (wrap_longitude (SAMPLING_MIN_LON + col * SAMPLING_RES)) = t.inclination_table row col
    rw [hw]
    exact sample_table_at_grid _ _ _ hr' hc'

/-- Witness for C7 at row 3, column 5. -/
theorem C7_grid_point_exact_witness :
    (3 < LAT_TABLE_SIZE ∧ 5 < LON_TABLE_SIZE)
    ∧ ((get_mag_field_ef tablesA (SAMPLING_MIN_LAT + 3 * SAMPLING_RES)
        (SAMPLING_MIN_LON + 5 * SAMPLING_RES)).valid = true
      ∧ (get_mag_field_ef tablesA (SAMPLING_MIN_LAT + 3 * SAMPLING_RES)
        (SAMPLING_MIN_LON + 5 * SAMPLING_RES)).intensity_gauss = tablesA.intensity_table 3 5
      ∧ (get_mag_field_ef tablesA (SAMPLING_MIN_LAT + 3 * SAMPLING_RES)
        (SAMPLING_MIN_LON + 5 * SAMPLING_RES)).declination_deg = tablesA.declination_table 3 5
      ∧ (get_mag_field_ef tablesA (SAMPLING_MIN_LAT + 3 * SAMPLING_RES)
        (SAMPLING_MIN_LON + 5 * SAMPLING_RES)).inclination_deg = tablesA.inclination_table 3 5) :=
  ⟨⟨by decide, by decide⟩, C7_grid_point_exact tablesA 3 5 (by decide) (by decide)⟩

/-- C8: each interpolated scalar returned by `get_mag_field_ef` lies
between the minimum and the maximum of the four grid cells used in its
interpolation; the interpolation never overshoots its inputs. -/
theorem C8_boundedness (t : Tables) (lat lon : ℚ) :
    (min (min (t.intensity_table (row_index lat) (col_index (wrap_longitude lon)))
          (t.intensity_table (row_index lat) (col_next (wrap_longitude lon))))
        (min (t.intensity_table (row_next lat) (col_index (wrap_longitude lon)))
          (t.intensity_table (row_next lat) (col_next (wrap_longitude lon))))
        ≤ (get_mag_field_ef t lat lon).intensity_gauss
      ∧ (get_mag_field_ef t lat lon).intensity_gauss ≤
        max (max (t.intensity_table (row_index lat) (col_index (wrap_longitude lon)))
            (t.intensity_table (row_index lat) (col_next (wrap_longitude lon))))
          (max (t.intensity_table (row_next lat) (col_index (wrap_longitude lon)))
            (t.intensity_table (row_next lat) (col_next (wrap_longitude lon)))))
    ∧ (min (min (t.declination_table (row_index lat) (col_index (wrap_longitude lon)))
          (t.declination_table (row_index lat) (col_next (wrap_longitude lon))))
        (min (t.declination_table (row_next lat) (col_index (wrap_longitude lon)))
          (t.declination_table (row_next lat) (col_next (wrap_longitude lon))))
        ≤ (get_mag_field_ef t lat lon).declination_deg
      ∧ (get_mag_field_ef t lat lon).declination_deg ≤
        max (max (t.declination_table (row_index lat) (col_index (wrap_longitude lon)))
            (t.declination_table (row_index lat) (col_next (wrap_longitude lon))))
          (max (t.declination_table (row_next lat) (col_index (wrap_longitude lon)))
            (t.declination_table (row_next lat) (col_next (wrap_longitude lon)))))
    ∧ (min (min (t.inclination_table (row_index lat) (col_index (wrap_longitude lon)))
          (t.inclination_table (row_index lat) (col_next (wrap_longitude lon))))
        (min (t.inclination_table (row_next lat) (col_index (wrap_longitude lon)))
          (t.inclination_table (row_next lat) (col_next (wrap_longitude lon))))
        ≤ (get_mag_field_ef t lat lon).inclination_deg
      ∧ (get_mag_field_ef t lat lon).inclination_deg ≤
        max (max (t.inclination_table (row_index lat) (col_index (wrap_longitude lon)))
            (t.inclination_table (row_index lat) (col_next (wrap_longitude lon))))
          (max (t.inclination_table (row_next lat) (col_index (wrap_longitude lon)))
            (t.inclination_table (row_next lat) (col_next (wrap_longitude lon))))) :=
  ⟨sample_table_bounds t.intensity_table lat (wrap_longitude lon),
   sample_table_bounds t.declination_table lat (wrap_longitude lon),
   sample_table_bounds t.inclination_table lat (wrap_longitude lon)⟩

/-- C9: `get_earth_field_ga` converts the fixed-point coordinate to
degrees by dividing by 1e7, feeds the sampler's triple to the vector
reconstructor (a pure function, so repeated queries agree), and the
fixed-point encoding of (52.52°, 13.405°) queries the sampler at exactly
those degree values. -/
theorem C9_fixed_point_refinement (t : Tables) (loc : Location) :
    get_earth_field_ga t loc = to_vector
      (((get_mag_field_ef t ((loc.lat : ℚ) / 10 ^ 7) ((loc.lng : ℚ) / 10 ^ 7)).intensity_gauss : ℝ))
      (((get_mag_field_ef t ((loc.lat : ℚ) / 10 ^ 7) ((loc.lng : ℚ) / 10 ^ 7)).declination_deg : ℝ))
      (((get_mag_field_ef t ((loc.lat : ℚ) / 10 ^ 7) ((loc.lng : ℚ) / 10 ^ 7)).inclination_deg : ℝ))
    ∧ get_mag_field_ef t ((525200000 : ℚ) / 10 ^ 7) ((134050000 : ℚ) / 10 ^ 7)
      = get_mag_field_ef t (52.52 : ℚ) (13.405 : ℚ) := by
  refine ⟨get_earth_field_ga_def t loc, ?_⟩
  have h1 : (525200000 : ℚ) / 10 ^ 7 = 52.52 := by norm_num
  have h2 : (134050000 : ℚ) / 10 ^ 7 = 13.405 := by norm_num
  rw [h1, h2]

/-- C10: the convenience accessors expose no validity indication:
`get_declination` is the bare projection of the sampler's declination and
`get_earth_field_ga` the bare reconstruction of the sampler's triple, so
the rejected query at latitude 91° returns exactly the same values as the
accepted query at latitude 90° — indistinguishable to the caller. -/
theorem C10_convenience_no_validity (t : Tables) (lat lon : ℚ) :
    get_declination t lat lon = (get_mag_field_ef t lat lon).declination_deg
    ∧ get_declination t 91 0 = get_declination t 90 0
    ∧ (get_mag_field_ef t 91 0).valid = false
    ∧ (get_mag_field_ef t 90 0).valid = true
    ∧ get_earth_field_ga t ⟨910000000, 0⟩ = get_earth_field_ga t ⟨900000000, 0⟩ := by
  have hc : lat_clamped (91:ℚ) = lat_clamped 90 := by
    norm_num [lat_clamped, clampQ, SAMPLING_MIN_LAT, SAMPLING_MAX_LAT]
  have hI : sample_table t.intensity_table 91 (wrap_longitude 0)
      = sample_table t.intensity_table 90 (wrap_longitude 0) :=
    sample_table_congr _ _ _ _ _ hc rfl
  have hD : sample_table t.declination_table 91 (wrap_longitude 0)
      = sample_table t.declination_table 90 (wrap_longitude 0) :=
    sample_table_congr _ _ _ _ _ hc rfl
  have hN : sample_table t.inclination_table 91 (wrap_longitude 0)
      = sample_table t.inclination_table 90 (wrap_longitude 0) :=
    sample_table_congr _ _ _ _ _ hc rfl
  refine ⟨rfl, hD, ?_, ?_, ?_⟩
  · show in_range 91 (wrap_longitude 0) = false
    norm_num [in_range, wrap_longitude, SAMPLING_MIN_LAT, SAMPLING_MAX_LAT,
      SAMPLING_MIN_LON, SAMPLING_MAX_LON]
  · show in_range 90 (wrap_longitude 0) = true
    norm_num [in_range, wrap_longitude, SAMPLING_MIN_LAT, SAMPLING_MAX_LAT,
      SAMPLING_MIN_LON, SAMPLING_MAX_LON]
  · rw [get_earth_field_ga_def, get_earth_field_ga_def]
    have e1 : (((Location.mk 910000000 0).lat : ℚ)) / 10 ^ 7 = 91 := by
      show ((910000000 : ℤ) : ℚ) / 10 ^ 7 = 91
      norm_num
    have e2 : (((Location.mk 910000000 0).lng : ℚ)) / 10 ^ 7 = 0 := by
      show ((0 : ℤ) : ℚ) / 10 ^ 7 = 0
      norm_num
    have e3 : (((Location.mk 900000000 0).lat : ℚ)) / 10 ^ 7 = 90 := by
      show ((900000000 : ℤ) : ℚ) / 10 ^ 7 = 90
      norm_num
    rw [e1, e2, e3]
    have f1 : (get_mag_field_ef t 91 (0:ℚ)).intensity_gauss
        = (get_mag_field_ef t 90 (0:ℚ)).intensity_gauss := hI
    have f2 : (get_mag_field_ef t 91 (0:ℚ)).declination_deg
        = (get_mag_field_ef t 90 (0:ℚ)).declination_deg := hD
    have f3 : (get_mag_field_ef t 91 (0:ℚ)).inclination_deg
        = (get_mag_field_ef t 90 (0:ℚ)).inclination_deg := hN
    rw [f1, f2, f3]

end GeoMag
